import Mathlib

/-!
Verification of the Lighthouse aggregation core of `browser-tools-mcp`
(`src/browser-tools-server/lighthouse/comprehensive-analysis.ts` and
`src/browser-tools-server/lighthouse/pwa.ts`).

The TypeScript code computes the weighted overall score in IEEE-754
binary64 ("double") arithmetic.  Every numeric value arising in that
computation (the weight literals `0.3`, `0.25`, `0.15`, `0.05`, all
products `score * weight` for integer scores up to a few hundred, and all
partial sums up to a few hundred) is an integer multiple of `2 ^ (-57)`
whose magnitude stays below `2 ^ 7`, i.e. below `2 ^ 64` after scaling by
`2 ^ 57`.  We therefore embed each double as the natural number
`value * 2 ^ 57`, and IEEE round-to-nearest-even at 53 significant bits
becomes the integer rounding function `fl57` below.  The weight constants
are the exact values of the corresponding double literals, scaled by
`2 ^ 57`.
-/

/-- Round the natural number `n` to the nearest multiple of `p`
(`p` a power of two), ties to even multiples: the scaled form of IEEE-754
round-to-nearest-even at one given binade. -/
def rnd (n p : ℕ) : ℕ :=
  if n % p < p / 2 then n / p * p
  else if p / 2 < n % p then (n / p + 1) * p
  else if n / p % 2 = 0 then n / p * p
  else (n / p + 1) * p

/-- IEEE-754 binary64 rounding for values scaled by `2 ^ 57`: round `n` to
53 significant bits with round-to-nearest-even.  Faithful for all
`n < 2 ^ 64`, which covers every value occurring in the overall-score
computation (all magnitudes are below `2 ^ 7 = 128` before scaling). -/
def fl57 (n : ℕ) : ℕ :=
  if n < 9007199254740992 then n
  else if n < 18014398509481984 then rnd n 2
  else if n < 36028797018963968 then rnd n 4
  else if n < 72057594037927936 then rnd n 8
  else if n < 144115188075855872 then rnd n 16
  else if n < 288230376151711744 then rnd n 32
  else if n < 576460752303423488 then rnd n 64
  else if n < 1152921504606846976 then rnd n 128
  else if n < 2305843009213693952 then rnd n 256
  else if n < 4611686018427387904 then rnd n 512
  else if n < 9223372036854775808 then rnd n 1024
  else rnd n 2048

/-- The double literal `0.3` (weight of the performance category),
scaled by `2 ^ 57`:  `0.3` parses to `5404319552844595 * 2 ^ (-54)`. -/
def c03 : ℕ := 43234556422756760

/-- The double literal `0.25` (weights of accessibility and SEO),
scaled by `2 ^ 57` (`0.25` is exactly representable). -/
def c025 : ℕ := 36028797018963968

/-- The double literal `0.15` (weight of best-practices), scaled by
`2 ^ 57`: `0.15` parses to `5404319552844595 * 2 ^ (-55)`. -/
def c015 : ℕ := 21617278211378380

/-- The double literal `0.05` (weight of PWA), scaled by `2 ^ 57`:
`0.05` parses to `3602879701896397 * 2 ^ (-56)`. -/
def c005 : ℕ := 7205759403792794

/-- A JavaScript double multiplication `score * weight` where `score` is a
small integer (exactly representable) and `weight` is one of the scaled
constants: the exact product rounded to binary64. -/
def jsMul (s c : ℕ) : ℕ := fl57 (s * c)

/-- A JavaScript double addition of two scaled doubles: the exact sum
rounded to binary64. -/
def jsAdd (x y : ℕ) : ℕ := fl57 (x + y)

/-- The weighted sum
`performance * 0.3 + accessibility * 0.25 + seo * 0.25 +
 best_practices * 0.15 + pwa * 0.05`
exactly as JavaScript evaluates it (left-associated double operations),
scaled by `2 ^ 57`.  From `comprehensive-analysis.ts` lines 137-143. -/
def dsum (p a s b w : ℕ) : ℕ :=
  jsAdd (jsAdd (jsAdd (jsAdd (jsMul p c03) (jsMul a c025)) (jsMul s c025))
      (jsMul b c015)) (jsMul w c005)

/-- `Math.round` applied to the scaled double weighted sum: in
JavaScript, `Math.round v` is `⌊v + 1/2⌋` (exactly, on the double value `v ≥ 0`),
which at scale `2 ^ 57` is `(2 * d + 2 ^ 57) / 2 ^ 58` in integer
division.  This is the `overall_score` of
`runComprehensiveSiteAnalysis`. -/
def computeOverallScore (p a s b w : ℕ) : ℕ :=
  (2 * dsum p a s b w + 144115188075855872) / 288230376151711744

/-- Modelled from the spec:  the formula of the spec,
`round(0.30·perf + 0.25·a11y + 0.25·seo + 0.15·bp + 0.05·pwa)` evaluated
in exact arithmetic, rounding to the nearest integer with ties away from
zero (for non-negative inputs this is `⌊x + 1/2⌋`).  The exact weighted
sum is `N / 100` with `N = 30p + 25a + 25s + 15b + 5w`. -/
def specOverallRound (p a s b w : ℕ) : ℕ :=
  (30 * p + 25 * a + 25 * s + 15 * b + 5 * w + 50) / 100

theorem rnd_err_2 (n : ℕ) : rnd n 2 ≤ n + 1024 ∧ n ≤ rnd n 2 + 1024 := by
  unfold rnd; split_ifs <;> omega

theorem rnd_err_4 (n : ℕ) : rnd n 4 ≤ n + 1024 ∧ n ≤ rnd n 4 + 1024 := by
  unfold rnd; split_ifs <;> omega

theorem rnd_err_8 (n : ℕ) : rnd n 8 ≤ n + 1024 ∧ n ≤ rnd n 8 + 1024 := by
  unfold rnd; split_ifs <;> omega

theorem rnd_err_16 (n : ℕ) : rnd n 16 ≤ n + 1024 ∧ n ≤ rnd n 16 + 1024 := by
  unfold rnd; split_ifs <;> omega

theorem rnd_err_32 (n : ℕ) : rnd n 32 ≤ n + 1024 ∧ n ≤ rnd n 32 + 1024 := by
  unfold rnd; split_ifs <;> omega

theorem rnd_err_64 (n : ℕ) : rnd n 64 ≤ n + 1024 ∧ n ≤ rnd n 64 + 1024 := by
  unfold rnd; split_ifs <;> omega

theorem rnd_err_128 (n : ℕ) :
    rnd n 128 ≤ n + 1024 ∧ n ≤ rnd n 128 + 1024 := by
  unfold rnd; split_ifs <;> omega

theorem rnd_err_256 (n : ℕ) :
    rnd n 256 ≤ n + 1024 ∧ n ≤ rnd n 256 + 1024 := by
  unfold rnd; split_ifs <;> omega

theorem rnd_err_512 (n : ℕ) :
    rnd n 512 ≤ n + 1024 ∧ n ≤ rnd n 512 + 1024 := by
  unfold rnd; split_ifs <;> omega

theorem rnd_err_1024 (n : ℕ) :
    rnd n 1024 ≤ n + 1024 ∧ n ≤ rnd n 1024 + 1024 := by
  unfold rnd; split_ifs <;> omega

theorem rnd_err_2048 (n : ℕ) :
    rnd n 2048 ≤ n + 1024 ∧ n ≤ rnd n 2048 + 1024 := by
  unfold rnd; split_ifs <;> omega

set_option maxHeartbeats 2000000 in
theorem fl57_err (n : ℕ) :
    fl57 n ≤ n + 1024 ∧ n ≤ fl57 n + 1024 := by
  have t2 := rnd_err_2 n
  have t4 := rnd_err_4 n
  have t8 := rnd_err_8 n
  have t16 := rnd_err_16 n
  have t32 := rnd_err_32 n
  have t64 := rnd_err_64 n
  have t128 := rnd_err_128 n
  have t256 := rnd_err_256 n
  have t512 := rnd_err_512 n
  have t1024 := rnd_err_1024 n
  have t2048 := rnd_err_2048 n
  unfold fl57
  split_ifs <;> omega

theorem dsum_close (p a s b w : ℕ)
    (hp : p ≤ 100) (ha : a ≤ 100) (hs : s ≤ 100) (hb : b ≤ 100)
    (hw : w ≤ 100) :
    (30 * p + 25 * a + 25 * s + 15 * b + 5 * w) * 144115188075855872 ≤
        100 * dsum p a s b w + 1900000 ∧
      100 * dsum p a s b w ≤
        (30 * p + 25 * a + 25 * s + 15 * b + 5 * w) * 144115188075855872 +
          1900000 := by
  have hm1 : p * 43234556422756760 ≤ 100 * 43234556422756760 :=
    Nat.mul_le_mul_right _ hp
  have hm2 : a * 36028797018963968 ≤ 100 * 36028797018963968 :=
    Nat.mul_le_mul_right _ ha
  have hm3 : s * 36028797018963968 ≤ 100 * 36028797018963968 :=
    Nat.mul_le_mul_right _ hs
  have hm4 : b * 21617278211378380 ≤ 100 * 21617278211378380 :=
    Nat.mul_le_mul_right _ hb
  have hm5 : w * 7205759403792794 ≤ 100 * 7205759403792794 :=
    Nat.mul_le_mul_right _ hw
  unfold dsum jsAdd jsMul c03 c025 c015 c005
  have e1 := fl57_err (p * 43234556422756760)
  have e2 := fl57_err (a * 36028797018963968)
  have e3 := fl57_err (s * 36028797018963968)
  have e4 := fl57_err (b * 21617278211378380)
  have e5 := fl57_err (w * 7205759403792794)
  have s1 := fl57_err
    (fl57 (p * 43234556422756760) + fl57 (a * 36028797018963968))
  have s2 := fl57_err
    (fl57 (fl57 (p * 43234556422756760) +
        fl57 (a * 36028797018963968)) + fl57 (s * 36028797018963968))
  have s3 := fl57_err
    (fl57 (fl57 (fl57 (p * 43234556422756760) +
        fl57 (a * 36028797018963968)) + fl57 (s * 36028797018963968)) +
        fl57 (b * 21617278211378380))
  have s4 := fl57_err
    (fl57 (fl57 (fl57 (fl57 (p * 43234556422756760) +
        fl57 (a * 36028797018963968)) + fl57 (s * 36028797018963968)) +
        fl57 (b * 21617278211378380)) + fl57 (w * 7205759403792794))
  omega

/-- Claim C1, counterexample.  The claim asserts that `overall_score`
always equals `round(0.30*performance + 0.25*accessibility + 0.25*seo +
0.15*best_practices + 0.05*pwa)` with ties rounded away from zero.  At
category scores `performance = accessibility = seo = 0`,
`best_practices = 3`, `pwa = 1`, the exact weighted sum is `0.5`, so the
claimed rounding gives `1`; but JavaScript evaluates
`3 * 0.15 + 1 * 0.05` in binary64 arithmetic as
`0.49999999999999994`, and `Math.round` of that double is `0`. -/
theorem C1_overall_score_tie_counterexample :
    computeOverallScore 0 0 0 3 1 = 0 ∧ specOverallRound 0 0 0 3 1 = 1 ∧
      computeOverallScore 0 0 0 3 1 ≠ specOverallRound 0 0 0 3 1 := by
  decide

/-- Claim C1, amended.  For all integer category scores in `[0, 100]`,
the `overall_score` computed by `runComprehensiveSiteAnalysis` (that is,
`Math.round` of the binary64 evaluation of
`0.30*perf + 0.25*a11y + 0.25*seo + 0.15*bp + 0.05*pwa`) lies in
`[0, 100]`; whenever the exact weighted sum is not an exact tie (its
fractional part is not `1/2`, i.e. `N % 100 ≠ 50` for
`N = 30p + 25a + 25s + 15b + 5w`), it equals the claimed
round-to-nearest with ties away from zero; at exact ties it equals either
that value or one less (floating-point error can pull the double sum just
below the tie).  The five decimal weight constants sum to exactly 1. -/
theorem C1_overall_score_amended (p a s b w : ℕ)
    (hp : p ≤ 100) (ha : a ≤ 100) (hs : s ≤ 100) (hb : b ≤ 100)
    (hw : w ≤ 100) :
    computeOverallScore p a s b w ≤ 100 ∧
      ((30 * p + 25 * a + 25 * s + 15 * b + 5 * w) % 100 ≠ 50 →
        computeOverallScore p a s b w = specOverallRound p a s b w) ∧
      ((30 * p + 25 * a + 25 * s + 15 * b + 5 * w) % 100 = 50 →
        specOverallRound p a s b w - 1 ≤ computeOverallScore p a s b w ∧
          computeOverallScore p a s b w ≤ specOverallRound p a s b w) ∧
      (3 / 10 + 1 / 4 + 1 / 4 + 3 / 20 + 1 / 20 : ℚ) = 1 := by
  have hd := dsum_close p a s b w hp ha hs hb hw
  have hq :=
    Nat.div_add_mod (30 * p + 25 * a + 25 * s + 15 * b + 5 * w + 50) 100
  refine ⟨?_, ?_, ?_, by norm_num⟩
  · unfold computeOverallScore
    omega
  · intro hne
    have hj1 :
        (30 * p + 25 * a + 25 * s + 15 * b + 5 * w + 50) / 100 * 20 ≤
          6 * p + 5 * a + 5 * s + 3 * b + w + 9 := by
      omega
    have hj2 :
        6 * p + 5 * a + 5 * s + 3 * b + w ≤
          (30 * p + 25 * a + 25 * s + 15 * b + 5 * w + 50) / 100 * 20 +
            10 := by
      omega
    unfold computeOverallScore specOverallRound
    have hlow :
        (30 * p + 25 * a + 25 * s + 15 * b + 5 * w + 50) / 100 *
            288230376151711744 ≤
          2 * dsum p a s b w + 144115188075855872 := by
      clear hq hne hj2
      omega
    have hhigh :
        2 * dsum p a s b w + 144115188075855872 <
          ((30 * p + 25 * a + 25 * s + 15 * b + 5 * w + 50) / 100 + 1) *
            288230376151711744 := by
      clear hq hne hj1
      omega
    clear hd hq hne hj1 hj2
    omega
  · intro htie
    have hqt :
        (30 * p + 25 * a + 25 * s + 15 * b + 5 * w + 50) / 100 * 100 =
          30 * p + 25 * a + 25 * s + 15 * b + 5 * w + 50 := by
      omega
    unfold computeOverallScore specOverallRound
    have hlow :
        (30 * p + 25 * a + 25 * s + 15 * b + 5 * w + 50) / 100 *
            288230376151711744 ≤
          2 * dsum p a s b w + 144115188075855872 +
            288230376151711744 := by
      clear hq htie
      omega
    have hhigh :
        2 * dsum p a s b w + 144115188075855872 <
          ((30 * p + 25 * a + 25 * s + 15 * b + 5 * w + 50) / 100 + 1) *
            288230376151711744 := by
      clear hq htie
      omega
    clear hd hq htie hqt
    omega

/-- Witness for the amended claim C1 at concrete scores
`(90, 80, 70, 60, 50)`: the exact weighted sum is `79.0`, no tie, and the
computed overall score is exactly `79`. -/
theorem C1_overall_score_amended_witness :
    computeOverallScore 90 80 70 60 50 = specOverallRound 90 80 70 60 50 :=
  ((C1_overall_score_amended 90 80 70 60 50 (by decide) (by decide)
    (by decide) (by decide) (by decide)).2.1 (by decide))

/-!
Data model of the category reports, translated from the interfaces and
usage in `comprehensive-analysis.ts` and `pwa.ts`.  Category scores are
the 0-100 integers produced by the adapters (`Math.round(score * 100)`),
modelled as `ℕ`.  Issue payload fields that the aggregation core never
inspects (performance `metrics` and `diagnostics` entries) are kept as
opaque strings.  The `analyzed_at` wall-clock timestamp is outside the
model.
-/

/-- The four severity tiers used by `pwa.ts` and by best-practices
issues. -/
inductive Severity where
  | critical
  | serious
  | moderate
  | minor
  deriving Repr, DecidableEq

/-- The shared `audit_counts` record of every category report. -/
structure AuditCounts where
  failed : ℕ
  passed : ℕ
  manual : ℕ
  informative : ℕ
  not_applicable : ℕ
  deriving Repr, DecidableEq

/-- Core Web Vitals as used by the orchestrator: optional `CLS` and `LCP`
readings (absent keys and the empty object of the fallback report are
`none`). -/
structure CoreWebVitals where
  CLS : Option ℚ
  LCP : Option ℚ
  deriving Repr, DecidableEq

/-- A performance opportunity; the orchestrator reads its `id` and its
`impact` string. -/
structure Opportunity where
  id : String
  impact : String
  deriving Repr, DecidableEq

/-- The performance report content (fields used by
`comprehensive-analysis.ts`; `metrics` and `diagnostics` payloads are
opaque). -/
structure PerformanceReportContent where
  score : ℕ
  audit_counts : AuditCounts
  core_web_vitals : CoreWebVitals
  metrics : List String
  opportunities : List Opportunity
  diagnostics : List String
  deriving Repr, DecidableEq

/-- An accessibility violation; the orchestrator reads its `id` and its
`impact` string. -/
structure Violation where
  id : String
  impact : String
  deriving Repr, DecidableEq

/-- The accessibility report content. -/
structure AccessibilityReportContent where
  score : ℕ
  audit_counts : AuditCounts
  violations : List Violation
  incomplete : List String
  manual_checks : List String
  deriving Repr, DecidableEq

/-- An SEO issue; the orchestrator reads `id`, `impact` and `category`. -/
structure SEOIssue where
  id : String
  impact : String
  category : String
  deriving Repr, DecidableEq

/-- The `categories.mobile` sub-object of the SEO report. -/
structure SEOMobileCategory where
  issues_count : ℕ
  deriving Repr, DecidableEq

/-- The `categories` object of the SEO report; the empty report carries
`{}`, i.e. no `mobile` entry. -/
structure SEOCategories where
  mobile : Option SEOMobileCategory
  deriving Repr, DecidableEq

/-- The SEO report content (the SEO adapter exposes it directly under
`report`, without a `content` wrapper). -/
structure SEOReportContent where
  score : ℕ
  audit_counts : AuditCounts
  issues : List SEOIssue
  categories : SEOCategories
  deriving Repr, DecidableEq

/-- A best-practices issue; the orchestrator reads `id` and `severity`. -/
structure BPIssue where
  id : String
  severity : Severity
  deriving Repr, DecidableEq

/-- The best-practices report content. -/
structure BestPracticesReportContent where
  score : ℕ
  audit_counts : AuditCounts
  issues : List BPIssue
  deriving Repr, DecidableEq

/-- PWA installability status (`pwa.ts`). -/
structure PWAInstallability where
  is_installable : Bool
  has_manifest : Bool
  has_service_worker : Bool
  has_icons : Bool
  issues : List String
  deriving Repr, DecidableEq

/-- A PWA audit issue (`pwa.ts`). -/
structure PWAIssue where
  id : String
  title : String
  description : String
  score : Option ℚ
  severity : Severity
  deriving Repr, DecidableEq

/-- The PWA report content (`pwa.ts`); `prioritized_recommendations` is an
optional field, absent (`none`) in the fallback empty report. -/
structure PWAReportContent where
  score : ℕ
  audit_counts : AuditCounts
  installability : PWAInstallability
  offline_support : Bool
  fast_reliable : Bool
  optimized : Bool
  issues : List PWAIssue
  prioritized_recommendations : Option (List String)
  deriving Repr, DecidableEq

/-- Insights that span multiple Lighthouse categories. -/
structure CrossCategoryInsight where
  id : String
  title : String
  description : String
  affected_categories : List String
  impact : Severity
  recommendation : String
  deriving Repr, DecidableEq

/-- Prioritized action item combining insights from multiple categories. -/
structure PrioritizedActionItem where
  rank : ℕ
  title : String
  description : String
  categories : List String
  impact : Severity
  effort : String
  roi_score : ℕ
  action_steps : List String
  deriving Repr, DecidableEq

/-- Quick wins - low effort, high impact improvements. -/
structure QuickWin where
  title : String
  category : String
  impact : String
  estimated_time : String
  action : String
  deriving Repr, DecidableEq

/-- Summary statistics across all categories. -/
structure AnalysisSummary where
  total_issues : ℕ
  critical_issues : ℕ
  total_audits : ℕ
  passed_audits : ℕ
  failed_audits : ℕ
  deriving Repr, DecidableEq

/-- The category score record of the comprehensive analysis. -/
structure CategoryScores where
  performance : ℕ
  accessibility : ℕ
  seo : ℕ
  best_practices : ℕ
  pwa : ℕ
  deriving Repr, DecidableEq

/-- Comprehensive site analysis aggregating all Lighthouse categories
(the `analyzed_at` timestamp is outside the model). -/
structure ComprehensiveSiteAnalysis where
  url : String
  overall_score : ℕ
  category_scores : CategoryScores
  performance : PerformanceReportContent
  accessibility : AccessibilityReportContent
  seo : SEOReportContent
  best_practices : BestPracticesReportContent
  pwa : PWAReportContent
  cross_category_insights : List CrossCategoryInsight
  prioritized_action_items : List PrioritizedActionItem
  quick_wins : List QuickWin
  summary : AnalysisSummary
  deriving Repr, DecidableEq

/-- Empty performance report used when the performance adapter fails
(`createEmptyPerformanceReport`). -/
def createEmptyPerformanceReport : PerformanceReportContent where
  score := 0
  audit_counts :=
    { failed := 0, passed := 0, manual := 0, informative := 0
      not_applicable := 0 }
  core_web_vitals := { CLS := none, LCP := none }
  metrics := []
  opportunities := []
  diagnostics := []

/-- Empty accessibility report used when the accessibility adapter fails
(`createEmptyAccessibilityReport`). -/
def createEmptyAccessibilityReport : AccessibilityReportContent where
  score := 0
  audit_counts :=
    { failed := 0, passed := 0, manual := 0, informative := 0
      not_applicable := 0 }
  violations := []
  incomplete := []
  manual_checks := []

/-- Empty SEO report used when the SEO adapter fails
(`createEmptySEOReport`); `categories` is the empty object. -/
def createEmptySEOReport : SEOReportContent where
  score := 0
  audit_counts :=
    { failed := 0, passed := 0, manual := 0, informative := 0
      not_applicable := 0 }
  issues := []
  categories := { mobile := none }

/-- Empty best-practices report used when the best-practices adapter
fails (`createEmptyBestPracticesReport`). -/
def createEmptyBestPracticesReport : BestPracticesReportContent where
  score := 0
  audit_counts :=
    { failed := 0, passed := 0, manual := 0, informative := 0
      not_applicable := 0 }
  issues := []

/-- Empty PWA report used when the PWA adapter fails
(`createEmptyPWAReport`); it has no `prioritized_recommendations`
field. -/
def createEmptyPWAReport : PWAReportContent where
  score := 0
  audit_counts :=
    { failed := 0, passed := 0, manual := 0, informative := 0
      not_applicable := 0 }
  installability :=
    { is_installable := false, has_manifest := false
      has_service_worker := false, has_icons := false, issues := [] }
  offline_support := false
  fast_reliable := false
  optimized := false
  issues := []
  prioritized_recommendations := none

/-- Calculate summary statistics across all categories
(`calculateSummary`). -/
def calculateSummary (performance : PerformanceReportContent)
    (accessibility : AccessibilityReportContent) (seo : SEOReportContent)
    (best_practices : BestPracticesReportContent)
    (pwa : PWAReportContent) : AnalysisSummary where
  total_audits :=
    performance.audit_counts.failed + performance.audit_counts.passed +
      accessibility.audit_counts.failed +
      accessibility.audit_counts.passed + seo.audit_counts.failed +
      seo.audit_counts.passed + best_practices.audit_counts.failed +
      best_practices.audit_counts.passed + pwa.audit_counts.failed +
      pwa.audit_counts.passed
  passed_audits :=
    performance.audit_counts.passed + accessibility.audit_counts.passed +
      seo.audit_counts.passed + best_practices.audit_counts.passed +
      pwa.audit_counts.passed
  failed_audits :=
    performance.audit_counts.failed + accessibility.audit_counts.failed +
      seo.audit_counts.failed + best_practices.audit_counts.failed +
      pwa.audit_counts.failed
  total_issues :=
    performance.opportunities.length + accessibility.violations.length +
      seo.issues.length + best_practices.issues.length +
      pwa.issues.length
  critical_issues :=
    performance.opportunities.countP (fun o => o.impact == "critical") +
      accessibility.violations.countP (fun v => v.impact == "critical") +
      seo.issues.countP (fun i => i.impact == "critical") +
      best_practices.issues.countP
        (fun i => i.severity == Severity.critical) +
      pwa.issues.countP (fun i => i.severity == Severity.critical)

/-- Insight 1 of `generateCrossCategoryInsights`: large images affecting
performance, SEO, and accessibility. -/
def insightLargeImages : CrossCategoryInsight where
  id := "large-images-multi-impact"
  title := "Image optimization affects multiple areas"
  description :=
    "Unoptimized images are impacting page load speed, accessibility (missing alt text), and potentially SEO rankings."
  affected_categories := ["performance", "accessibility", "seo"]
  impact := Severity.serious
  recommendation :=
    "Compress images, add descriptive alt text, and use next-gen formats (WebP, AVIF) to improve performance, accessibility, and SEO simultaneously."

/-- Insight 2 of `generateCrossCategoryInsights`: mobile-friendliness
affecting performance, SEO, and accessibility. -/
def insightMobileOptimization : CrossCategoryInsight where
  id := "mobile-optimization-needed"
  title := "Mobile experience needs improvement"
  description :=
    "Layout shifts (CLS) and mobile usability issues are impacting Core Web Vitals, SEO rankings, and user experience on mobile devices."
  affected_categories := ["performance", "seo", "accessibility"]
  impact := Severity.serious
  recommendation :=
    "Fix layout shifts by reserving space for images/ads, optimize viewport settings, and ensure touch targets are appropriately sized."

/-- Insight 3 of `generateCrossCategoryInsights`: PWA capabilities for
performance and engagement. -/
def insightPwaCapabilities : CrossCategoryInsight where
  id := "pwa-capabilities-missing"
  title := "PWA features could improve performance and engagement"
  description :=
    "Adding PWA capabilities (service worker, manifest) would enable offline support, faster repeat visits, and installability."
  affected_categories := ["pwa", "performance"]
  impact := Severity.moderate
  recommendation :=
    "Implement a service worker for caching, create a web app manifest, and add app icons to enable PWA installation."

/-- Insight 4 of `generateCrossCategoryInsights`: HTTPS and security
affecting SEO and best practices. -/
def insightHttpsSecurity : CrossCategoryInsight where
  id := "https-security-seo"
  title := "HTTPS migration needed for security and SEO"
  description :=
    "Non-HTTPS pages are flagged by browsers as insecure and may be penalized in search rankings."
  affected_categories := ["best_practices", "seo"]
  impact := Severity.critical
  recommendation :=
    "Migrate entire site to HTTPS, update internal links, and implement proper redirects from HTTP to HTTPS."

/-- Insight 5 of `generateCrossCategoryInsights`: accessibility and SEO
overlap (semantic HTML). -/
def insightSemanticHtml : CrossCategoryInsight where
  id := "semantic-html-structure"
  title := "HTML structure impacts both accessibility and SEO"
  description :=
    "Proper heading hierarchy and semantic HTML help screen readers and search engines understand page content."
  affected_categories := ["accessibility", "seo"]
  impact := Severity.moderate
  recommendation :=
    "Use proper heading hierarchy (h1→h2→h3), semantic HTML5 elements, and descriptive page titles."

/-- The five insight rules in their fixed evaluation order. -/
def crossCategoryRuleTable : List CrossCategoryInsight :=
  [insightLargeImages, insightMobileOptimization, insightPwaCapabilities,
    insightHttpsSecurity, insightSemanticHtml]

/-- Generate insights that span multiple categories
(`generateCrossCategoryInsights`): the gate of each rule is evaluated
independently and the matching rules are emitted in fixed rule order.
The CLS reading is compared against the literal `0.1` (`CLS` must also be
truthy, which for a present reading means non-zero; a zero reading fails
`CLS > 0.1` as well, so the guard below is equivalent). -/
def generateCrossCategoryInsights (performance : PerformanceReportContent)
    (accessibility : AccessibilityReportContent) (seo : SEOReportContent)
    (best_practices : BestPracticesReportContent)
    (pwa : PWAReportContent) : List CrossCategoryInsight :=
  (if performance.opportunities.any
        (fun o => o.id == "uses-optimized-images") &&
      accessibility.violations.any (fun v => v.id == "image-alt") then
    [insightLargeImages]
  else []) ++
  ((if performance.core_web_vitals.CLS.any
        (fun c => decide ((1 : ℚ) / 10 < c)) &&
      (seo.categories.mobile.any (fun m => decide (0 < m.issues_count))) then
    [insightMobileOptimization]
  else []) ++
  ((if !pwa.installability.is_installable && decide (performance.score < 70)
      && !pwa.offline_support then
    [insightPwaCapabilities]
  else []) ++
  ((if best_practices.issues.any (fun i => i.id == "is-on-https") &&
      seo.issues.any (fun i => i.category == "crawlability") then
    [insightHttpsSecurity]
  else []) ++
  (if accessibility.violations.any
        (fun v => v.id == "heading-order" || v.id == "document-title") &&
      seo.issues.any (fun i => i.category == "content") then
    [insightSemanticHtml]
  else []))))

/-- Action 1 of `generatePrioritizedActionItems`: migrate to HTTPS
(emitted with rank 1; ranks are reassigned after sorting). -/
def httpsMigrateActionItem : PrioritizedActionItem where
  rank := 1
  title := "Migrate to HTTPS"
  description :=
    "Implement SSL/TLS encryption for all pages to secure user data and meet security best practices."
  categories := ["best_practices", "seo"]
  impact := Severity.critical
  effort := "medium"
  roi_score := 95
  action_steps :=
    ["1. Obtain SSL certificate (Let\x27s Encrypt is free)",
      "2. Configure server to use HTTPS",
      "3. Update all internal links to use HTTPS",
      "4. Implement 301 redirects from HTTP to HTTPS",
      "5. Update sitemap and robots.txt"]

/-- Action 2 of `generatePrioritizedActionItems`: optimize LCP. -/
def lcpActionItem (rank : ℕ) : PrioritizedActionItem where
  rank := rank
  title := "Optimize Largest Contentful Paint (LCP)"
  description :=
    "Improve page load speed by optimizing the largest visible element\x27s load time (currently exceeds 2.5s threshold)."
  categories := ["performance", "seo"]
  impact := Severity.serious
  effort := "medium"
  roi_score := 90
  action_steps :=
    ["1. Optimize and compress the LCP element (image/text block)",
      "2. Use CDN for faster content delivery",
      "3. Preload critical resources",
      "4. Remove render-blocking JavaScript",
      "5. Consider lazy loading non-critical content"]

/-- Action 3 of `generatePrioritizedActionItems`: fix the `n` critical
accessibility violations. -/
def a11yActionItem (rank n : ℕ) : PrioritizedActionItem where
  rank := rank
  title := "Fix " ++ toString n ++ " critical accessibility issues"
  description :=
    "Address WCAG violations that prevent users with disabilities from accessing content."
  categories := ["accessibility"]
  impact := Severity.critical
  effort := "low"
  roi_score := 85
  action_steps :=
    ["1. Add alt text to all images",
      "2. Ensure proper color contrast (4.5:1 minimum)",
      "3. Add labels to form inputs",
      "4. Ensure keyboard navigation works",
      "5. Use semantic HTML elements"]

/-- Action 4 of `generatePrioritizedActionItems`: add meta
descriptions. -/
def metaDescriptionActionItem (rank : ℕ) : PrioritizedActionItem where
  rank := rank
  title := "Add meta descriptions"
  description :=
    "Create compelling meta descriptions to improve click-through rates from search results."
  categories := ["seo"]
  impact := Severity.moderate
  effort := "low"
  roi_score := 80
  action_steps :=
    ["1. Write unique, descriptive meta descriptions (150-160 chars)",
      "2. Include target keywords naturally",
      "3. Add compelling call-to-action",
      "4. Ensure each page has a unique meta description"]

/-- Action 5 of `generatePrioritizedActionItems`: implement PWA
features. -/
def pwaActionItem (rank : ℕ) : PrioritizedActionItem where
  rank := rank
  title := "Implement Progressive Web App features"
  description :=
    "Add PWA capabilities to enable offline support, faster load times, and home screen installation."
  categories := ["pwa", "performance"]
  impact := Severity.moderate
  effort := "high"
  roi_score := 70
  action_steps :=
    ["1. Create web app manifest (manifest.json)",
      "2. Add app icons (multiple sizes)",
      "3. Implement service worker for caching",
      "4. Test offline functionality",
      "5. Configure theme color and splash screen"]

/-- The candidate action items, in the order
`generatePrioritizedActionItems` pushes them (before sorting); the
interim ranks are `current length + 1`, as in the source. -/
def actionItemCandidates (performance : PerformanceReportContent)
    (accessibility : AccessibilityReportContent) (seo : SEOReportContent)
    (best_practices : BestPracticesReportContent)
    (pwa : PWAReportContent) : List PrioritizedActionItem :=
  let i1 : List PrioritizedActionItem :=
    if best_practices.issues.any
        (fun i => i.id == "is-on-https" &&
          i.severity == Severity.critical) then
      [httpsMigrateActionItem]
    else []
  let i2 := i1 ++
    (if performance.core_web_vitals.LCP.any
        (fun v => decide ((2500 : ℚ) < v)) then
      [lcpActionItem (i1.length + 1)]
    else [])
  let n3 :=
    (accessibility.violations.filter
      (fun v => v.impact == "critical")).length
  let i3 := i2 ++
    (if 0 < n3 then [a11yActionItem (i2.length + 1) n3] else [])
  let i4 := i3 ++
    (if seo.issues.any (fun i => i.id == "meta-description") then
      [metaDescriptionActionItem (i3.length + 1)]
    else [])
  let i5 := i4 ++
    (if !pwa.installability.is_installable && decide (pwa.score < 50) then
      [pwaActionItem (i4.length + 1)]
    else [])
  i5

/-- Stable insertion of an action item into a list that is sorted by
descending `roi_score`: the new element goes before the first element
whose `roi_score` is not larger.  This realises the behaviour of the
(stable, ES2019) JavaScript `Array.prototype.sort` with comparator
`(a, b) => b.roi_score - a.roi_score`. -/
def insertByRoiDesc (x : PrioritizedActionItem) :
    List PrioritizedActionItem → List PrioritizedActionItem
  | [] => [x]
  | y :: ys =>
    if y.roi_score ≤ x.roi_score then x :: y :: ys
    else y :: insertByRoiDesc x ys

/-- Stable sort by descending `roi_score` (insertion sort). -/
def sortByRoiDesc :
    List PrioritizedActionItem → List PrioritizedActionItem
  | [] => []
  | x :: xs => insertByRoiDesc x (sortByRoiDesc xs)

/-- Reassign ranks `n, n+1, ...` along the list (the post-sort
`forEach` that sets `item.rank = index + 1`, generalised to an arbitrary
starting rank for the induction). -/
def assignRanks (n : ℕ) :
    List PrioritizedActionItem → List PrioritizedActionItem
  | [] => []
  | x :: xs => { x with rank := n } :: assignRanks (n + 1) xs

/-- Generate prioritized action items
(`generatePrioritizedActionItems`): build the candidates, stable-sort
them by descending ROI, renumber ranks from 1, and keep the first ten.
The `cross_category_insights` parameter is accepted (as in the source)
but never read. -/
def generatePrioritizedActionItems (performance : PerformanceReportContent)
    (accessibility : AccessibilityReportContent) (seo : SEOReportContent)
    (best_practices : BestPracticesReportContent)
    (pwa : PWAReportContent)
    (cross_category_insights : List CrossCategoryInsight) :
    List PrioritizedActionItem :=
  (assignRanks 1
    (sortByRoiDesc
      (actionItemCandidates performance accessibility seo best_practices
        pwa))).take 10

/-- Quick win 1 of `generateQuickWins`: add meta description. -/
def qwMetaDescription : QuickWin where
  title := "Add meta description"
  category := "seo"
  impact := "Improves click-through rate from search results"
  estimated_time := "5 minutes"
  action :=
    "Add <meta name=\"description\" content=\"Your page description here\"> to <head>"

/-- Quick win 2 of `generateQuickWins`: add alt text to images. -/
def qwAltText : QuickWin where
  title := "Add alt text to images"
  category := "accessibility"
  impact := "Improves accessibility for screen readers and SEO"
  estimated_time := "10 minutes"
  action := "Add alt=\"descriptive text\" attribute to all <img> tags"

/-- Quick win 3 of `generateQuickWins`: enable text compression. -/
def qwTextCompression : QuickWin where
  title := "Enable Gzip/Brotli compression"
  category := "performance"
  impact := "Reduces file transfer size by 70-90%"
  estimated_time := "15 minutes"
  action :=
    "Configure server to enable Gzip or Brotli compression for text files"

/-- Quick win 4 of `generateQuickWins`: add viewport meta tag. -/
def qwViewport : QuickWin where
  title := "Add viewport meta tag"
  category := "seo"
  impact := "Improves mobile rendering and SEO"
  estimated_time := "2 minutes"
  action :=
    "Add <meta name=\"viewport\" content=\"width=device-width, initial-scale=1\"> to <head>"

/-- Quick win 5 of `generateQuickWins`: add page title. -/
def qwPageTitle : QuickWin where
  title := "Add descriptive page title"
  category := "seo"
  impact := "Improves SEO and browser tab identification"
  estimated_time := "5 minutes"
  action :=
    "Add <title>Your Page Title - Site Name</title> to <head> section"

/-- Quick win 6 of `generateQuickWins`: fix color contrast. -/
def qwColorContrast : QuickWin where
  title := "Fix color contrast issues"
  category := "accessibility"
  impact := "Improves readability for users with vision impairments"
  estimated_time := "20 minutes"
  action :=
    "Adjust text and background colors to meet 4.5:1 contrast ratio"

/-- The six quick-win rules in their fixed evaluation order. -/
def quickWinRuleTable : List QuickWin :=
  [qwMetaDescription, qwAltText, qwTextCompression, qwViewport,
    qwPageTitle, qwColorContrast]

/-- Generate quick wins (`generateQuickWins`): the gate of each rule is
evaluated independently, matches are emitted in fixed rule order, and
the first six are returned. -/
def generateQuickWins (performance : PerformanceReportContent)
    (accessibility : AccessibilityReportContent) (seo : SEOReportContent)
    (best_practices : BestPracticesReportContent)
    (pwa : PWAReportContent) : List QuickWin :=
  ((if seo.issues.any (fun i => i.id == "meta-description") then
      [qwMetaDescription]
    else []) ++
  ((if accessibility.violations.any (fun v => v.id == "image-alt") then
      [qwAltText]
    else []) ++
  ((if performance.opportunities.any
        (fun o => o.id == "uses-text-compression") then
      [qwTextCompression]
    else []) ++
  ((if seo.issues.any (fun i => i.id == "viewport") then
      [qwViewport]
    else []) ++
  ((if seo.issues.any (fun i => i.id == "document-title") then
      [qwPageTitle]
    else []) ++
  (if accessibility.violations.any
        (fun v => v.id == "color-contrast") then
      [qwColorContrast]
    else [])))))).take 6

/-- Run comprehensive site analysis (`runComprehensiveSiteAnalysis`),
pure core.  Each adapter result is `none` when that adapter rejected
(either error kind is absorbed by the per-adapter `.catch` returning
`null`); the aggregation itself is total, so the call always returns a
complete analysis.  The `analyzed_at` timestamp is outside the model. -/
def runComprehensiveSiteAnalysis (url : String)
    (performanceResult : Option PerformanceReportContent)
    (accessibilityResult : Option AccessibilityReportContent)
    (seoResult : Option SEOReportContent)
    (bestPracticesResult : Option BestPracticesReportContent)
    (pwaResult : Option PWAReportContent) : ComprehensiveSiteAnalysis :=
  let category_scores : CategoryScores :=
    { performance := (performanceResult.map (·.score)).getD 0
      accessibility := (accessibilityResult.map (·.score)).getD 0
      seo := (seoResult.map (·.score)).getD 0
      best_practices := (bestPracticesResult.map (·.score)).getD 0
      pwa := (pwaResult.map (·.score)).getD 0 }
  let overall_score :=
    computeOverallScore category_scores.performance
      category_scores.accessibility category_scores.seo
      category_scores.best_practices category_scores.pwa
  let performance := performanceResult.getD createEmptyPerformanceReport
  let accessibility :=
    accessibilityResult.getD createEmptyAccessibilityReport
  let seo := seoResult.getD createEmptySEOReport
  let best_practices :=
    bestPracticesResult.getD createEmptyBestPracticesReport
  let pwa := pwaResult.getD createEmptyPWAReport
  let summary :=
    calculateSummary performance accessibility seo best_practices pwa
  let cross_category_insights :=
    generateCrossCategoryInsights performance accessibility seo
      best_practices pwa
  let prioritized_action_items :=
    generatePrioritizedActionItems performance accessibility seo
      best_practices pwa cross_category_insights
  let quick_wins :=
    generateQuickWins performance accessibility seo best_practices pwa
  { url := url
    overall_score := overall_score
    category_scores := category_scores
    performance := performance
    accessibility := accessibility
    seo := seo
    best_practices := best_practices
    pwa := pwa
    cross_category_insights := cross_category_insights
    prioritized_action_items := prioritized_action_items
    quick_wins := quick_wins
    summary := summary }

/-!
Model of the PWA adapter (`pwa.ts`).  A Lighthouse result is a category
entry (numeric score and audit references) plus an audit map keyed by
audit id; audit scores are `number | null`, modelled as `Option ℚ`, and
score display modes are the raw strings Lighthouse uses.  The
missing-category branch of `runPWAAudit` throws; the orchestrator
absorbs that as a `none` adapter result, so the model covers the
successful path (category present).
-/

/-- A Lighthouse audit entry, as read by `pwa.ts`. -/
structure LighthouseAudit where
  title : String
  description : String
  score : Option ℚ
  scoreDisplayMode : String
  deriving Repr, DecidableEq

/-- An audit reference of a Lighthouse category. -/
structure AuditRef where
  id : String
  deriving Repr, DecidableEq

/-- The PWA category of a Lighthouse result: its normalized score
(`number | null`) and its audit references. -/
structure PWACategory where
  score : Option ℚ
  auditRefs : List AuditRef
  deriving Repr, DecidableEq

/-- Severity assigned to a failed PWA audit from its score
(`pwa.ts` lines 163-171): the default is `moderate`; a score of exactly
`0` is `critical`; otherwise a non-null score at most `0.5` is `serious`
and a non-null score above `0.7` is `minor`. -/
def pwaSeverity (score : Option ℚ) : Severity :=
  if score = some 0 then Severity.critical
  else if score.any (fun s => decide (s ≤ 1 / 2)) then Severity.serious
  else if score.any (fun s => decide (7 / 10 < s)) then Severity.minor
  else Severity.moderate

/-- The numeric severity order used to sort PWA issues
(`severityOrder` in `pwa.ts`): critical 0, serious 1, moderate 2,
minor 3. -/
def severityOrder : Severity → ℕ
  | Severity.critical => 0
  | Severity.serious => 1
  | Severity.moderate => 2
  | Severity.minor => 3

/-- Upper-case severity label (`issue.severity.toUpperCase()`). -/
def severityUpper : Severity → String
  | Severity.critical => "CRITICAL"
  | Severity.serious => "SERIOUS"
  | Severity.moderate => "MODERATE"
  | Severity.minor => "MINOR"

/-- Accumulator of the audit-classification loop of `runPWAAudit`:
the five counters and the collected issue list. -/
structure PWAScanState where
  failedCount : ℕ
  passedCount : ℕ
  manualCount : ℕ
  informativeCount : ℕ
  notApplicableCount : ℕ
  issues : List PWAIssue
  deriving Repr, DecidableEq

/-- The initial scan state: all counters zero, no issues. -/
def pwaScanInit : PWAScanState where
  failedCount := 0
  passedCount := 0
  manualCount := 0
  informativeCount := 0
  notApplicableCount := 0
  issues := []

/-- One iteration of the `for (const ref of auditRefs)` loop of
`runPWAAudit`: skip refs with no audit entry; classify the audit by
display mode first (`manual`, `informative`, `notApplicable`), then by
passing score (`score === 1`), and otherwise count it failed and record
an issue with its derived severity. -/
def pwaScanStep (audits : List (String × LighthouseAudit))
    (st : PWAScanState) (ref : AuditRef) : PWAScanState :=
  match List.lookup ref.id audits with
  | none => st
  | some audit =>
    if audit.scoreDisplayMode = "manual" then
      { st with manualCount := st.manualCount + 1 }
    else if audit.scoreDisplayMode = "informative" then
      { st with informativeCount := st.informativeCount + 1 }
    else if audit.scoreDisplayMode = "notApplicable" then
      { st with notApplicableCount := st.notApplicableCount + 1 }
    else if audit.score = some 1 then
      { st with passedCount := st.passedCount + 1 }
    else
      { st with
        failedCount := st.failedCount + 1
        issues := st.issues ++
          [{ id := ref.id, title := audit.title
             description := audit.description, score := audit.score
             severity := pwaSeverity audit.score }] }

/-- The audit-classification loop of `runPWAAudit` over all audit
references. -/
def pwaScan (audits : List (String × LighthouseAudit))
    (refs : List AuditRef) : PWAScanState :=
  refs.foldl (pwaScanStep audits) pwaScanInit

/-- Stable insertion into a list sorted by ascending severity order: the
new issue goes before the first issue of strictly larger severity rank.
Realises the stable JavaScript sort with comparator
`severityOrder[a.severity] - severityOrder[b.severity]`. -/
def insertBySeverity (x : PWAIssue) : List PWAIssue → List PWAIssue
  | [] => [x]
  | y :: ys =>
    if severityOrder x.severity ≤ severityOrder y.severity then
      x :: y :: ys
    else y :: insertBySeverity x ys

/-- Stable sort of PWA issues by ascending severity order (insertion
sort). -/
def sortBySeverity : List PWAIssue → List PWAIssue
  | [] => []
  | x :: xs => insertBySeverity x (sortBySeverity xs)

/-- Rounding used for the 0-100 category score:
`Math.round(value)` is `⌊value + 1/2⌋` for the non-negative Lighthouse
scores. -/
def jsRoundQ (q : ℚ) : ℤ := ⌊q + 1 / 2⌋

/-- Run a PWA audit (`runPWAAudit`, successful path), given the PWA
category and the audit map of the Lighthouse result.  The JavaScript
`Array.prototype.sort` sorts the `issues` array in place, so the
`issues` field of the returned report is the severity-sorted array, and
`prioritized_recommendations` is its mapped, 5-truncated rendering. -/
def runPWAAudit (pwaCategory : PWACategory)
    (audits : List (String × LighthouseAudit)) : PWAReportContent :=
  let score : ℕ := (jsRoundQ ((pwaCategory.score.getD 0) * 100)).toNat
  let manifestAudit := List.lookup ("installable-manifest") audits
  let serviceWorkerAudit := List.lookup ("service-worker") audits
  let iconsAudit := List.lookup ("apple-touch-icon") audits
  let splashScreenAudit := List.lookup ("splash-screen") audits
  let themedOmniboxAudit := List.lookup ("themed-omnibox") audits
  let has_manifest := manifestAudit.any (fun a => a.score == some 1)
  let has_service_worker :=
    serviceWorkerAudit.any (fun a => a.score == some 1)
  let has_icons := iconsAudit.any (fun a => a.score == some 1)
  let installability : PWAInstallability :=
    { is_installable := has_manifest && has_service_worker
      has_manifest := has_manifest
      has_service_worker := has_service_worker
      has_icons := has_icons
      issues :=
        (if !has_manifest then
          ["Missing or invalid web app manifest (manifest.json)"]
        else []) ++
        (if !has_service_worker then
          ["No service worker registered (required for offline support)"]
        else []) ++
        (if !has_icons then
          ["Missing app icons (required for installation)"]
        else []) ++
        (if splashScreenAudit.any (fun a => !(a.score == some 1)) then
          ["Splash screen configuration incomplete"]
        else []) ++
        (if themedOmniboxAudit.any (fun a => !(a.score == some 1)) then
          ["Themed omnibox (theme-color) not configured"]
        else []) }
  let scan := pwaScan audits pwaCategory.auditRefs
  let sortedIssues := sortBySeverity scan.issues
  let prioritized_recommendations :=
    (sortedIssues.map
      (fun issue => severityUpper issue.severity ++ ": " ++
        issue.title)).take 5
  { score := score
    audit_counts :=
      { failed := scan.failedCount
        passed := scan.passedCount
        manual := scan.manualCount
        informative := scan.informativeCount
        not_applicable := scan.notApplicableCount }
    installability := installability
    offline_support := has_service_worker
    fast_reliable := decide (70 ≤ score)
    optimized := decide (90 ≤ score)
    issues := sortedIssues
    prioritized_recommendations := some prioritized_recommendations }

/-- Claim C9 (confirmed): `generatePrioritizedActionItems` is independent
of its `cross_category_insights` argument — for fixed category reports,
any two insight lists yield identical action item lists (the parameter
influences no gate, field, order, or truncation). -/
theorem C9_action_items_insight_independent
    (performance : PerformanceReportContent)
    (accessibility : AccessibilityReportContent) (seo : SEOReportContent)
    (best_practices : BestPracticesReportContent)
    (pwa : PWAReportContent)
    (ins1 ins2 : List CrossCategoryInsight) :
    generatePrioritizedActionItems performance accessibility seo
        best_practices pwa ins1 =
      generatePrioritizedActionItems performance accessibility seo
        best_practices pwa ins2 := rfl

/-- Claim C3 (confirmed): the PWA adapter assigns severity to a failed
audit with score `s` exactly as claimed: `s = 0` is critical; a non-null
`s ≠ 0` with `s ≤ 0.5` is serious; a non-null `s > 0.7` is minor; every
remaining case — `s` in `(0.5, 0.7]` or a null score — is moderate.  In
particular a score of exactly `0.5` is serious and a score of exactly
`0.7` is moderate. -/
theorem C3_pwa_severity_boundaries :
    pwaSeverity (some 0) = Severity.critical ∧
      (∀ q : ℚ, q ≠ 0 → q ≤ 1 / 2 → pwaSeverity (some q) = Severity.serious) ∧
      (∀ q : ℚ, 7 / 10 < q → pwaSeverity (some q) = Severity.minor) ∧
      (∀ q : ℚ, 1 / 2 < q → q ≤ 7 / 10 →
        pwaSeverity (some q) = Severity.moderate) ∧
      pwaSeverity none = Severity.moderate ∧
      pwaSeverity (some (1 / 2)) = Severity.serious ∧
      pwaSeverity (some (7 / 10)) = Severity.moderate := by
  refine ⟨rfl, ?_, ?_, ?_, rfl, by norm_num [pwaSeverity], by
    norm_num [pwaSeverity]⟩
  · intro q hne hle
    simp only [pwaSeverity, Option.any_some, Option.some.injEq]
    rw [if_neg (by simpa using hne), if_pos (by simpa using hle)]
  · intro q hgt
    have hne : ¬ q = 0 := by intro h; rw [h] at hgt; norm_num at hgt
    have hnle : ¬ q ≤ 1 / 2 := by intro h; nlinarith
    simp only [pwaSeverity, Option.any_some, Option.some.injEq]
    rw [if_neg (by simpa using hne), if_neg (by simpa using hnle),
      if_pos (by simpa using hgt)]
  · intro q hgt hle
    have hne : ¬ q = 0 := by intro h; rw [h] at hgt; norm_num at hgt
    have hnle : ¬ q ≤ 1 / 2 := by intro h; nlinarith
    have hnm : ¬ 7 / 10 < q := by intro h; nlinarith
    simp only [pwaSeverity, Option.any_some, Option.some.injEq]
    rw [if_neg (by simpa using hne), if_neg (by simpa using hnle),
      if_neg (by simpa using hnm)]

/-- Witness for C3: a failed audit with score `0.25` is classified
serious. -/
theorem C3_pwa_severity_boundaries_witness :
    pwaSeverity (some (1 / 4)) = Severity.serious :=
  C3_pwa_severity_boundaries.2.1 (1 / 4) (by norm_num) (by norm_num)

/-- Claim C2 (confirmed): when an adapter rejects (either error kind is
absorbed by the per-adapter `.catch`, yielding `null`), the report of
that category in the returned analysis is the canonical empty report and its
category score is 0 (hence it contributes 0 to `category_scores` and to
the weighted `overall_score`); the orchestrator is total, and even with
all five adapters failed it returns a complete analysis with all
category scores 0 and overall score 0. -/
theorem C2_adapter_failure_absorbed (url : String)
    (pr : Option PerformanceReportContent)
    (ar : Option AccessibilityReportContent)
    (sr : Option SEOReportContent)
    (br : Option BestPracticesReportContent)
    (wr : Option PWAReportContent) :
    (pr = none →
      (runComprehensiveSiteAnalysis url pr ar sr br wr).performance =
          createEmptyPerformanceReport ∧
        (runComprehensiveSiteAnalysis url pr ar sr br
            wr).category_scores.performance = 0) ∧
    (ar = none →
      (runComprehensiveSiteAnalysis url pr ar sr br wr).accessibility =
          createEmptyAccessibilityReport ∧
        (runComprehensiveSiteAnalysis url pr ar sr br
            wr).category_scores.accessibility = 0) ∧
    (sr = none →
      (runComprehensiveSiteAnalysis url pr ar sr br wr).seo =
          createEmptySEOReport ∧
        (runComprehensiveSiteAnalysis url pr ar sr br
            wr).category_scores.seo = 0) ∧
    (br = none →
      (runComprehensiveSiteAnalysis url pr ar sr br wr).best_practices =
          createEmptyBestPracticesReport ∧
        (runComprehensiveSiteAnalysis url pr ar sr br
            wr).category_scores.best_practices = 0) ∧
    (wr = none →
      (runComprehensiveSiteAnalysis url pr ar sr br wr).pwa =
          createEmptyPWAReport ∧
        (runComprehensiveSiteAnalysis url pr ar sr br
            wr).category_scores.pwa = 0) ∧
    ((runComprehensiveSiteAnalysis url none none none none
        none).category_scores =
      { performance := 0, accessibility := 0, seo := 0
        best_practices := 0, pwa := 0 }) ∧
    (runComprehensiveSiteAnalysis url none none none none
        none).overall_score = 0 := by
  refine ⟨?_, ?_, ?_, ?_, ?_, rfl, ?_⟩
  · intro h; subst h; exact ⟨rfl, rfl⟩
  · intro h; subst h; exact ⟨rfl, rfl⟩
  · intro h; subst h; exact ⟨rfl, rfl⟩
  · intro h; subst h; exact ⟨rfl, rfl⟩
  · intro h; subst h; exact ⟨rfl, rfl⟩
  · show (2 * dsum 0 0 0 0 0 + 144115188075855872) /
        288230376151711744 = 0
    decide

/-- Witness for C2: the all-failed call returns the canonical empty
performance report and overall score 0. -/
theorem C2_adapter_failure_absorbed_witness :
    (runComprehensiveSiteAnalysis ("https://example.com") none none none
        none none).performance = createEmptyPerformanceReport ∧
      (runComprehensiveSiteAnalysis ("https://example.com") none none
        none none none).overall_score = 0 := by
  have h := C2_adapter_failure_absorbed ("https://example.com") none
    none none none none
  exact ⟨(h.1 rfl).1, h.2.2.2.2.2.2⟩

theorem insertByRoiDesc_perm (x : PrioritizedActionItem)
    (l : List PrioritizedActionItem) :
    List.Perm (insertByRoiDesc x l) (x :: l) := by
  induction l with
  | nil => rfl
  | cons y ys ih =>
    unfold insertByRoiDesc
    split
    · rfl
    · exact ((ih.cons y).trans (List.Perm.swap x y ys))

theorem sortByRoiDesc_perm (l : List PrioritizedActionItem) :
    List.Perm (sortByRoiDesc l) l := by
  induction l with
  | nil => rfl
  | cons x xs ih =>
    exact (insertByRoiDesc_perm x (sortByRoiDesc xs)).trans (ih.cons x)

theorem mem_insertByRoiDesc {x y : PrioritizedActionItem}
    {l : List PrioritizedActionItem} (h : y ∈ insertByRoiDesc x l) :
    y = x ∨ y ∈ l := by
  have := (insertByRoiDesc_perm x l).mem_iff.mp h
  simpa using this

theorem insertByRoiDesc_pairwise {x : PrioritizedActionItem}
    {l : List PrioritizedActionItem}
    (h : l.Pairwise (fun a b => b.roi_score ≤ a.roi_score)) :
    (insertByRoiDesc x l).Pairwise
      (fun a b => b.roi_score ≤ a.roi_score) := by
  induction l with
  | nil => simp [insertByRoiDesc]
  | cons y ys ih =>
    rw [List.pairwise_cons] at h
    unfold insertByRoiDesc
    split
    · rename_i hle
      rw [List.pairwise_cons]
      refine ⟨?_, List.pairwise_cons.mpr h⟩
      intro z hz
      rcases List.mem_cons.mp hz with hzy | hzys
      · simpa [hzy] using hle
      · exact le_trans (h.1 z hzys) hle
    · rename_i hgt
      rw [List.pairwise_cons]
      refine ⟨?_, ih h.2⟩
      intro z hz
      rcases mem_insertByRoiDesc hz with hzx | hzys
      · subst hzx; omega
      · exact h.1 z hzys

theorem sortByRoiDesc_pairwise (l : List PrioritizedActionItem) :
    (sortByRoiDesc l).Pairwise (fun a b => b.roi_score ≤ a.roi_score) := by
  induction l with
  | nil => simp [sortByRoiDesc]
  | cons x xs ih => exact insertByRoiDesc_pairwise ih

theorem filter_roi_insertByRoiDesc (x : PrioritizedActionItem)
    (l : List PrioritizedActionItem) (r : ℕ) :
    (insertByRoiDesc x l).filter (fun z => z.roi_score == r) =
      (x :: l).filter (fun z => z.roi_score == r) := by
  induction l with
  | nil => rfl
  | cons y ys ih =>
    unfold insertByRoiDesc
    split
    · rfl
    · rename_i hgt
      by_cases hx : x.roi_score = r
      · have hy : ¬ y.roi_score = r := by omega
        simp [List.filter_cons, hx, hy, ih]
      · simp [List.filter_cons, hx, ih]

theorem filter_roi_sortByRoiDesc (l : List PrioritizedActionItem)
    (r : ℕ) :
    (sortByRoiDesc l).filter (fun z => z.roi_score == r) =
      l.filter (fun z => z.roi_score == r) := by
  induction l with
  | nil => rfl
  | cons x xs ih =>
    show (insertByRoiDesc x (sortByRoiDesc xs)).filter _ = _
    rw [filter_roi_insertByRoiDesc]
    simp only [List.filter_cons, ih]

theorem insertByRoiDesc_eq_cons {x : PrioritizedActionItem}
    {l : List PrioritizedActionItem}
    (h : ∀ y ∈ l, y.roi_score ≤ x.roi_score) :
    insertByRoiDesc x l = x :: l := by
  cases l with
  | nil => rfl
  | cons y ys =>
    unfold insertByRoiDesc
    rw [if_pos (h y (List.mem_cons_self y ys))]

theorem assignRanks_length (n : ℕ) (l : List PrioritizedActionItem) :
    (assignRanks n l).length = l.length := by
  induction l generalizing n with
  | nil => rfl
  | cons x xs ih => simp [assignRanks, ih]

theorem assignRanks_take_map_rank (l : List PrioritizedActionItem) :
    ∀ n k, (((assignRanks k l).take n).map (·.rank)) =
      List.range' k (min n l.length) := by
  induction l with
  | nil => intro n k; simp [assignRanks]
  | cons x xs ih =>
    intro n k
    cases n with
    | zero => simp
    | succ m =>
      have : min (m + 1) (x :: xs).length = min m xs.length + 1 := by
        simp [Nat.succ_min_succ]
      rw [this, List.range'_succ]
      simp only [assignRanks, List.take_succ_cons, List.map_cons]
      rw [ih m (k + 1)]

theorem assignRanks_map_roi (n : ℕ) (l : List PrioritizedActionItem) :
    (assignRanks n l).map (·.roi_score) = l.map (·.roi_score) := by
  induction l generalizing n with
  | nil => rfl
  | cons x xs ih => simp [assignRanks, ih]

/-- Claim C4 (confirmed): the returned prioritized action items are the
candidates stable-sorted descending by `roi_score` (the sort is a
permutation, sorted non-increasingly, and preserves the relative order of
equal-ROI candidates: filtering by any ROI value commutes with the sort),
ranks are reassigned as the 1-based position after sorting, and at most
ten items are returned. -/
theorem C4_action_items_sorted_ranked
    (performance : PerformanceReportContent)
    (accessibility : AccessibilityReportContent) (seo : SEOReportContent)
    (best_practices : BestPracticesReportContent)
    (pwa : PWAReportContent) (ins : List CrossCategoryInsight) :
    generatePrioritizedActionItems performance accessibility seo
        best_practices pwa ins =
      (assignRanks 1
        (sortByRoiDesc
          (actionItemCandidates performance accessibility seo
            best_practices pwa))).take 10 ∧
    (generatePrioritizedActionItems performance accessibility seo
        best_practices pwa ins).map (·.rank) =
      List.range' 1
        (generatePrioritizedActionItems performance accessibility seo
          best_practices pwa ins).length ∧
    (generatePrioritizedActionItems performance accessibility seo
        best_practices pwa ins).Pairwise
      (fun a b => b.roi_score ≤ a.roi_score) ∧
    (∀ r : ℕ,
      (sortByRoiDesc
          (actionItemCandidates performance accessibility seo
            best_practices pwa)).filter (fun z => z.roi_score == r) =
        (actionItemCandidates performance accessibility seo best_practices
          pwa).filter (fun z => z.roi_score == r)) ∧
    List.Perm
      (sortByRoiDesc
        (actionItemCandidates performance accessibility seo best_practices
          pwa))
      (actionItemCandidates performance accessibility seo best_practices
        pwa) ∧
    (generatePrioritizedActionItems performance accessibility seo
        best_practices pwa ins).length ≤ 10 := by
  refine ⟨rfl, ?_, ?_,
    fun r => filter_roi_sortByRoiDesc _ r, sortByRoiDesc_perm _,
    List.length_take_le 10 _⟩
  · have hlen :
        (generatePrioritizedActionItems performance accessibility seo
          best_practices pwa ins).length =
          min 10
            (sortByRoiDesc
              (actionItemCandidates performance accessibility seo
                best_practices pwa)).length := by
      show ((assignRanks 1 _).take 10).length = _
      rw [List.length_take, assignRanks_length]
    show ((assignRanks 1 _).take 10).map (·.rank) = _
    rw [assignRanks_take_map_rank, hlen]
  · have hs := sortByRoiDesc_pairwise
      (actionItemCandidates performance accessibility seo best_practices
        pwa)
    have h2 : ((assignRanks 1
        (sortByRoiDesc
          (actionItemCandidates performance accessibility seo
            best_practices pwa))).map
          (fun z => z.roi_score)).Pairwise (fun a b : ℕ => b ≤ a) := by
      rw [assignRanks_map_roi]
      exact List.pairwise_map.mpr hs
    exact List.Pairwise.sublist (List.take_sublist 10 _)
      (List.pairwise_map.mp h2)

theorem mem_if_singleton {α : Type} {c : Prop} [Decidable c] {y z : α}
    (h : y ∈ if c then [z] else []) : y = z := by
  split at h
  · simpa using h
  · simp at h

theorem actionItemCandidates_https_cons
    (performance : PerformanceReportContent)
    (accessibility : AccessibilityReportContent) (seo : SEOReportContent)
    (best_practices : BestPracticesReportContent)
    (pwa : PWAReportContent)
    (hgate : best_practices.issues.any
      (fun i => i.id == "is-on-https" &&
        i.severity == Severity.critical) = true) :
    ∃ t, actionItemCandidates performance accessibility seo best_practices
        pwa = httpsMigrateActionItem :: t ∧
      ∀ y ∈ t, y.roi_score ≤ 90 := by
  unfold actionItemCandidates
  rw [hgate]
  simp only [if_true, List.singleton_append, List.cons_append,
    List.nil_append]
  refine ⟨_, rfl, ?_⟩
  intro y hy
  simp only [List.append_assoc, List.mem_append] at hy
  rcases hy with h2 | h3 | h4 | h5
  · rw [mem_if_singleton h2]; show (90 : ℕ) ≤ 90; decide
  · rw [mem_if_singleton h3]; show (85 : ℕ) ≤ 90; decide
  · rw [mem_if_singleton h4]; show (80 : ℕ) ≤ 90; decide
  · rw [mem_if_singleton h5]; show (70 : ℕ) ≤ 90; decide

/-- Claim C6 (confirmed): whenever the best-practices issues contain an
issue with id `is-on-https` and severity critical, the prioritized action
items contain the "Migrate to HTTPS" entry with effort `medium` and
`roi_score` 95; since no other candidate has a larger ROI than 95 (a
hypothesis that always holds, 95 being the maximum of the rule table),
the stable sort leaves it first and it receives rank 1. -/
theorem C6_https_action_rank_one
    (performance : PerformanceReportContent)
    (accessibility : AccessibilityReportContent) (seo : SEOReportContent)
    (best_practices : BestPracticesReportContent)
    (pwa : PWAReportContent) (ins : List CrossCategoryInsight)
    (h : ∃ i ∈ best_practices.issues,
      i.id = "is-on-https" ∧ i.severity = Severity.critical) :
    (generatePrioritizedActionItems performance accessibility seo
        best_practices pwa ins).head? = some httpsMigrateActionItem ∧
      ∃ item ∈ generatePrioritizedActionItems performance accessibility
          seo best_practices pwa ins,
        item.title = "Migrate to HTTPS" ∧ item.effort = "medium" ∧
          item.roi_score = 95 ∧ item.rank = 1 := by
  obtain ⟨i, hmem, hid, hsev⟩ := h
  have hgate : best_practices.issues.any
      (fun i => i.id == "is-on-https" &&
        i.severity == Severity.critical) = true := by
    rw [List.any_eq_true]
    exact ⟨i, hmem, by rw [hid, hsev]; rfl⟩
  obtain ⟨t, hc, ht⟩ := actionItemCandidates_https_cons performance
    accessibility seo best_practices pwa hgate
  have hsort : sortByRoiDesc (httpsMigrateActionItem :: t) =
      httpsMigrateActionItem :: sortByRoiDesc t := by
    show insertByRoiDesc _ _ = _
    apply insertByRoiDesc_eq_cons
    intro y hy
    have hyt : y ∈ t := (sortByRoiDesc_perm t).mem_iff.mp hy
    have h90 := ht y hyt
    have h95 : httpsMigrateActionItem.roi_score = 95 := rfl
    omega
  have hout : generatePrioritizedActionItems performance accessibility
      seo best_practices pwa ins =
      httpsMigrateActionItem ::
        (assignRanks 2 (sortByRoiDesc t)).take 9 := by
    show (assignRanks 1 (sortByRoiDesc (actionItemCandidates _ _ _ _
      _))).take 10 = _
    rw [hc, hsort]
    rfl
  rw [hout]
  exact ⟨rfl, httpsMigrateActionItem, List.mem_cons_self _ _, rfl, rfl,
    rfl, rfl⟩

/-- Witness for C6: with a single critical `is-on-https` best-practices
issue and all other reports empty, the analysis produces the HTTPS action
item at rank 1. -/
theorem C6_https_action_rank_one_witness :
    (generatePrioritizedActionItems createEmptyPerformanceReport
        createEmptyAccessibilityReport createEmptySEOReport
        { createEmptyBestPracticesReport with
          issues := [{ id := "is-on-https"
                       severity := Severity.critical }] }
        createEmptyPWAReport []).head? = some httpsMigrateActionItem := by
  have h := C6_https_action_rank_one createEmptyPerformanceReport
    createEmptyAccessibilityReport createEmptySEOReport
    { createEmptyBestPracticesReport with
      issues := [{ id := "is-on-https", severity := Severity.critical }] }
    createEmptyPWAReport []
    ⟨{ id := "is-on-https", severity := Severity.critical },
      List.mem_cons_self _ _, rfl, rfl⟩
  exact h.1

theorem if_singleton_sublist {α : Type} {c : Prop} [Decidable c]
    (z : α) : List.Sublist (if c then [z] else []) [z] := by
  split
  · exact List.Sublist.refl _
  · exact List.nil_sublist _

theorem filter_if_singleton {α : Type} (p : α → Bool) {c : Prop}
    [Decidable c] (z : α) (h : p z = false) :
    (if c then [z] else []).filter p = [] := by
  split
  · simp [List.filter_cons, h]
  · rfl

theorem generateCrossCategoryInsights_sublist
    (performance : PerformanceReportContent)
    (accessibility : AccessibilityReportContent) (seo : SEOReportContent)
    (best_practices : BestPracticesReportContent)
    (pwa : PWAReportContent) :
    List.Sublist
      (generateCrossCategoryInsights performance accessibility seo
        best_practices pwa) crossCategoryRuleTable := by
  unfold generateCrossCategoryInsights crossCategoryRuleTable
  show List.Sublist _
    ([insightLargeImages] ++ ([insightMobileOptimization] ++
      ([insightPwaCapabilities] ++ ([insightHttpsSecurity] ++
        [insightSemanticHtml]))))
  refine List.Sublist.append ?_ (List.Sublist.append ?_
    (List.Sublist.append ?_ (List.Sublist.append ?_ ?_))) <;>
    exact if_singleton_sublist _

/-- Claim C7 (confirmed): when the performance opportunities contain id
`uses-optimized-images` and the accessibility violations contain id
`image-alt`, the cross-category insights contain exactly one insight with
id `large-images-multi-impact` — the rule-1 literal, whose impact is
serious and whose affected categories are performance, accessibility and
seo; and for every input the emitted insights are a sublist of the
fixed, ordered rule table (rules evaluated independently, no
re-sorting). -/
theorem C7_large_images_insight
    (performance : PerformanceReportContent)
    (accessibility : AccessibilityReportContent) (seo : SEOReportContent)
    (best_practices : BestPracticesReportContent)
    (pwa : PWAReportContent) :
    ((∃ o ∈ performance.opportunities, o.id = "uses-optimized-images") →
      (∃ v ∈ accessibility.violations, v.id = "image-alt") →
      (generateCrossCategoryInsights performance accessibility seo
          best_practices pwa).filter
        (fun i => i.id == "large-images-multi-impact") =
        [insightLargeImages]) ∧
    insightLargeImages.impact = Severity.serious ∧
    insightLargeImages.affected_categories =
      ["performance", "accessibility", "seo"] ∧
    List.Sublist
      (generateCrossCategoryInsights performance accessibility seo
        best_practices pwa) crossCategoryRuleTable := by
  refine ⟨?_, rfl, rfl,
    generateCrossCategoryInsights_sublist performance accessibility seo
      best_practices pwa⟩
  intro h1 h2
  obtain ⟨o, ho, hoid⟩ := h1
  obtain ⟨v, hv, hvid⟩ := h2
  have hga : performance.opportunities.any
      (fun o => o.id == "uses-optimized-images") = true := by
    rw [List.any_eq_true]
    exact ⟨o, ho, by rw [hoid]; rfl⟩
  have hgb : accessibility.violations.any
      (fun v => v.id == "image-alt") = true := by
    rw [List.any_eq_true]
    exact ⟨v, hv, by rw [hvid]; rfl⟩
  unfold generateCrossCategoryInsights
  split_ifs <;> first | decide | simp_all

/-- Witness for C7: concrete reports in which performance has the
`uses-optimized-images` opportunity and accessibility has the
`image-alt` violation; the insight filter yields exactly the rule-1
literal. -/
theorem C7_large_images_insight_witness :
    (generateCrossCategoryInsights
        { createEmptyPerformanceReport with
          opportunities :=
            [{ id := "uses-optimized-images", impact := "serious" }] }
        { createEmptyAccessibilityReport with
          violations := [{ id := "image-alt", impact := "critical" }] }
        createEmptySEOReport createEmptyBestPracticesReport
        createEmptyPWAReport).filter
      (fun i => i.id == "large-images-multi-impact") =
      [insightLargeImages] := by
  have h := C7_large_images_insight
    { createEmptyPerformanceReport with
      opportunities :=
        [{ id := "uses-optimized-images", impact := "serious" }] }
    { createEmptyAccessibilityReport with
      violations := [{ id := "image-alt", impact := "critical" }] }
    createEmptySEOReport createEmptyBestPracticesReport
    createEmptyPWAReport
  exact h.1 ⟨_, List.mem_cons_self _ _, rfl⟩
    ⟨_, List.mem_cons_self _ _, rfl⟩

/-- Claim C8 (confirmed): when the accessibility violations contain id
`color-contrast`, the quick wins contain the "Fix color contrast issues"
entry for category accessibility; and for every input the quick wins are
a sublist of the fixed, ordered six-rule table (rule order, not impact
order) of length at most six. -/
theorem C8_color_contrast_quick_win
    (performance : PerformanceReportContent)
    (accessibility : AccessibilityReportContent) (seo : SEOReportContent)
    (best_practices : BestPracticesReportContent)
    (pwa : PWAReportContent) :
    ((∃ v ∈ accessibility.violations, v.id = "color-contrast") →
      ∃ q ∈ generateQuickWins performance accessibility seo
          best_practices pwa,
        q.title = "Fix color contrast issues" ∧
          q.category = "accessibility") ∧
    List.Sublist
      (generateQuickWins performance accessibility seo best_practices
        pwa) quickWinRuleTable ∧
    (generateQuickWins performance accessibility seo best_practices
        pwa).length ≤ 6 := by
  refine ⟨?_, ?_, List.length_take_le 6 _⟩
  · intro h
    obtain ⟨v, hv, hvid⟩ := h
    have hgate : accessibility.violations.any
        (fun v => v.id == "color-contrast") = true := by
      rw [List.any_eq_true]
      exact ⟨v, hv, by rw [hvid]; rfl⟩
    unfold generateQuickWins
    split_ifs <;> first | decide | simp_all
  · refine List.Sublist.trans (List.take_sublist 6 _) ?_
    unfold quickWinRuleTable
    show List.Sublist _
      ([qwMetaDescription] ++ ([qwAltText] ++ ([qwTextCompression] ++
        ([qwViewport] ++ ([qwPageTitle] ++ [qwColorContrast])))))
    refine List.Sublist.append ?_ (List.Sublist.append ?_
      (List.Sublist.append ?_ (List.Sublist.append ?_
        (List.Sublist.append ?_ ?_)))) <;>
      exact if_singleton_sublist _

/-- Witness for C8: a single `color-contrast` violation yields the
color-contrast quick win. -/
theorem C8_color_contrast_quick_win_witness :
    ∃ q ∈ generateQuickWins createEmptyPerformanceReport
        { createEmptyAccessibilityReport with
          violations :=
            [{ id := "color-contrast", impact := "serious" }] }
        createEmptySEOReport createEmptyBestPracticesReport
        createEmptyPWAReport,
      q.title = "Fix color contrast issues" ∧
        q.category = "accessibility" := by
  have h := C8_color_contrast_quick_win createEmptyPerformanceReport
    { createEmptyAccessibilityReport with
      violations := [{ id := "color-contrast", impact := "serious" }] }
    createEmptySEOReport createEmptyBestPracticesReport
    createEmptyPWAReport
  exact h.1 ⟨_, List.mem_cons_self _ _, rfl⟩

/-- The five classification buckets of the audit loop. -/
inductive AuditBucket where
  | manual
  | informative
  | notApplicable
  | passed
  | failed
  deriving Repr, DecidableEq

/-- Classification of one evaluated audit entry, in the order the loop
checks: display mode `manual`, then `informative`, then `notApplicable`,
then score 1 (passed), else failed. -/
def classifyAudit (audit : LighthouseAudit) : AuditBucket :=
  if audit.scoreDisplayMode = "manual" then AuditBucket.manual
  else if audit.scoreDisplayMode = "informative" then
    AuditBucket.informative
  else if audit.scoreDisplayMode = "notApplicable" then
    AuditBucket.notApplicable
  else if audit.score = some 1 then AuditBucket.passed
  else AuditBucket.failed

/-- The audit entries actually evaluated by the loop: one per audit
reference whose id has an entry in the audit map (refs without an entry
are skipped by `if (!audit) continue`). -/
def evaluatedAudits (audits : List (String × LighthouseAudit))
    (refs : List AuditRef) : List LighthouseAudit :=
  refs.filterMap (fun r => List.lookup r.id audits)


theorem evaluatedAudits_cons (audits : List (String × LighthouseAudit))
    (r : AuditRef) (rs : List AuditRef) :
    evaluatedAudits audits (r :: rs) =
      match List.lookup r.id audits with
      | none => evaluatedAudits audits rs
      | some a => a :: evaluatedAudits audits rs := by
  simp only [evaluatedAudits, List.filterMap_cons]
  cases List.lookup r.id audits <;> rfl

theorem pwaScan_manualCount (audits : List (String × LighthouseAudit))
    (refs : List AuditRef) :
    ∀ st : PWAScanState,
      (refs.foldl (pwaScanStep audits) st).manualCount =
        st.manualCount + (evaluatedAudits audits refs).countP
          (fun a => classifyAudit a == AuditBucket.manual) := by
  induction refs with
  | nil => intro st; simp [evaluatedAudits]
  | cons r rs ih =>
    intro st
    rw [List.foldl_cons, evaluatedAudits_cons]
    cases hl : List.lookup r.id audits with
    | none =>
      have hstep : pwaScanStep audits st r = st := by
        simp [pwaScanStep, hl]
      rw [hstep]
      exact ih st
    | some a =>
      rw [ih (pwaScanStep audits st r)]
      simp only [List.countP_cons, pwaScanStep, hl, classifyAudit]
      split_ifs <;> (simp_all; try omega)

theorem pwaScan_informativeCount (audits : List (String × LighthouseAudit))
    (refs : List AuditRef) :
    ∀ st : PWAScanState,
      (refs.foldl (pwaScanStep audits) st).informativeCount =
        st.informativeCount + (evaluatedAudits audits refs).countP
          (fun a => classifyAudit a == AuditBucket.informative) := by
  induction refs with
  | nil => intro st; simp [evaluatedAudits]
  | cons r rs ih =>
    intro st
    rw [List.foldl_cons, evaluatedAudits_cons]
    cases hl : List.lookup r.id audits with
    | none =>
      have hstep : pwaScanStep audits st r = st := by
        simp [pwaScanStep, hl]
      rw [hstep]
      exact ih st
    | some a =>
      rw [ih (pwaScanStep audits st r)]
      simp only [List.countP_cons, pwaScanStep, hl, classifyAudit]
      split_ifs <;> (simp_all; try omega)

theorem pwaScan_notApplicableCount (audits : List (String × LighthouseAudit))
    (refs : List AuditRef) :
    ∀ st : PWAScanState,
      (refs.foldl (pwaScanStep audits) st).notApplicableCount =
        st.notApplicableCount + (evaluatedAudits audits refs).countP
          (fun a => classifyAudit a == AuditBucket.notApplicable) := by
  induction refs with
  | nil => intro st; simp [evaluatedAudits]
  | cons r rs ih =>
    intro st
    rw [List.foldl_cons, evaluatedAudits_cons]
    cases hl : List.lookup r.id audits with
    | none =>
      have hstep : pwaScanStep audits st r = st := by
        simp [pwaScanStep, hl]
      rw [hstep]
      exact ih st
    | some a =>
      rw [ih (pwaScanStep audits st r)]
      simp only [List.countP_cons, pwaScanStep, hl, classifyAudit]
      split_ifs <;> (simp_all; try omega)

theorem pwaScan_passedCount (audits : List (String × LighthouseAudit))
    (refs : List AuditRef) :
    ∀ st : PWAScanState,
      (refs.foldl (pwaScanStep audits) st).passedCount =
        st.passedCount + (evaluatedAudits audits refs).countP
          (fun a => classifyAudit a == AuditBucket.passed) := by
  induction refs with
  | nil => intro st; simp [evaluatedAudits]
  | cons r rs ih =>
    intro st
    rw [List.foldl_cons, evaluatedAudits_cons]
    cases hl : List.lookup r.id audits with
    | none =>
      have hstep : pwaScanStep audits st r = st := by
        simp [pwaScanStep, hl]
      rw [hstep]
      exact ih st
    | some a =>
      rw [ih (pwaScanStep audits st r)]
      simp only [List.countP_cons, pwaScanStep, hl, classifyAudit]
      split_ifs <;> (simp_all; try omega)

theorem pwaScan_failedCount (audits : List (String × LighthouseAudit))
    (refs : List AuditRef) :
    ∀ st : PWAScanState,
      (refs.foldl (pwaScanStep audits) st).failedCount =
        st.failedCount + (evaluatedAudits audits refs).countP
          (fun a => classifyAudit a == AuditBucket.failed) := by
  induction refs with
  | nil => intro st; simp [evaluatedAudits]
  | cons r rs ih =>
    intro st
    rw [List.foldl_cons, evaluatedAudits_cons]
    cases hl : List.lookup r.id audits with
    | none =>
      have hstep : pwaScanStep audits st r = st := by
        simp [pwaScanStep, hl]
      rw [hstep]
      exact ih st
    | some a =>
      rw [ih (pwaScanStep audits st r)]
      simp only [List.countP_cons, pwaScanStep, hl, classifyAudit]
      split_ifs <;> (simp_all; try omega)

theorem countP_classify_partition (l : List LighthouseAudit) :
    l.countP (fun a => classifyAudit a == AuditBucket.manual) +
      l.countP (fun a => classifyAudit a == AuditBucket.informative) +
      l.countP (fun a => classifyAudit a == AuditBucket.notApplicable) +
      l.countP (fun a => classifyAudit a == AuditBucket.passed) +
      l.countP (fun a => classifyAudit a == AuditBucket.failed) =
      l.length := by
  induction l with
  | nil => simp
  | cons a l ih =>
    simp only [List.countP_cons, List.length_cons]
    rcases h : classifyAudit a <;> simp [h] <;> omega

/-- Claim C5 (confirmed): in the report of the PWA adapter, the five
`audit_counts` fields sum to the number of audit entries evaluated by the
loop, and each field counts exactly the evaluated entries falling in its
bucket under the ordered classification — display mode `manual`, then
`informative`, then `notApplicable`, then score 1 (`passed`), else
`failed`. -/
theorem C5_audit_counts_partition (pwaCategory : PWACategory)
    (audits : List (String × LighthouseAudit)) :
    (runPWAAudit pwaCategory audits).audit_counts.failed +
        (runPWAAudit pwaCategory audits).audit_counts.passed +
        (runPWAAudit pwaCategory audits).audit_counts.manual +
        (runPWAAudit pwaCategory audits).audit_counts.informative +
        (runPWAAudit pwaCategory audits).audit_counts.not_applicable =
      (evaluatedAudits audits pwaCategory.auditRefs).length ∧
    (runPWAAudit pwaCategory audits).audit_counts.manual =
      (evaluatedAudits audits pwaCategory.auditRefs).countP
        (fun a => classifyAudit a == AuditBucket.manual) ∧
    (runPWAAudit pwaCategory audits).audit_counts.informative =
      (evaluatedAudits audits pwaCategory.auditRefs).countP
        (fun a => classifyAudit a == AuditBucket.informative) ∧
    (runPWAAudit pwaCategory audits).audit_counts.not_applicable =
      (evaluatedAudits audits pwaCategory.auditRefs).countP
        (fun a => classifyAudit a == AuditBucket.notApplicable) ∧
    (runPWAAudit pwaCategory audits).audit_counts.passed =
      (evaluatedAudits audits pwaCategory.auditRefs).countP
        (fun a => classifyAudit a == AuditBucket.passed) ∧
    (runPWAAudit pwaCategory audits).audit_counts.failed =
      (evaluatedAudits audits pwaCategory.auditRefs).countP
        (fun a => classifyAudit a == AuditBucket.failed) := by
  have hm := pwaScan_manualCount audits pwaCategory.auditRefs pwaScanInit
  have hi := pwaScan_informativeCount audits pwaCategory.auditRefs
    pwaScanInit
  have hn := pwaScan_notApplicableCount audits pwaCategory.auditRefs
    pwaScanInit
  have hp := pwaScan_passedCount audits pwaCategory.auditRefs pwaScanInit
  have hf := pwaScan_failedCount audits pwaCategory.auditRefs pwaScanInit
  have hpart := countP_classify_partition
    (evaluatedAudits audits pwaCategory.auditRefs)
  have e1 : (runPWAAudit pwaCategory audits).audit_counts.failed =
      (pwaScan audits pwaCategory.auditRefs).failedCount := rfl
  have e2 : (runPWAAudit pwaCategory audits).audit_counts.passed =
      (pwaScan audits pwaCategory.auditRefs).passedCount := rfl
  have e3 : (runPWAAudit pwaCategory audits).audit_counts.manual =
      (pwaScan audits pwaCategory.auditRefs).manualCount := rfl
  have e4 : (runPWAAudit pwaCategory audits).audit_counts.informative =
      (pwaScan audits pwaCategory.auditRefs).informativeCount := rfl
  have e5 : (runPWAAudit pwaCategory
      audits).audit_counts.not_applicable =
      (pwaScan audits pwaCategory.auditRefs).notApplicableCount := rfl
  rw [e1, e2, e3, e4, e5]
  unfold pwaScan
  have hinit :
      pwaScanInit.failedCount = 0 ∧ pwaScanInit.passedCount = 0 ∧
        pwaScanInit.manualCount = 0 ∧ pwaScanInit.informativeCount = 0 ∧
        pwaScanInit.notApplicableCount = 0 := ⟨rfl, rfl, rfl, rfl, rfl⟩
  omega

theorem insertBySeverity_perm (x : PWAIssue) (l : List PWAIssue) :
    List.Perm (insertBySeverity x l) (x :: l) := by
  induction l with
  | nil => rfl
  | cons y ys ih =>
    unfold insertBySeverity
    split
    · rfl
    · exact ((ih.cons y).trans (List.Perm.swap x y ys))

theorem mem_insertBySeverity {x y : PWAIssue} {l : List PWAIssue}
    (h : y ∈ insertBySeverity x l) : y = x ∨ y ∈ l := by
  have := (insertBySeverity_perm x l).mem_iff.mp h
  simpa using this

theorem insertBySeverity_pairwise {x : PWAIssue} {l : List PWAIssue}
    (h : l.Pairwise
      (fun a b => severityOrder a.severity ≤ severityOrder b.severity)) :
    (insertBySeverity x l).Pairwise
      (fun a b => severityOrder a.severity ≤ severityOrder b.severity) := by
  induction l with
  | nil => simp [insertBySeverity]
  | cons y ys ih =>
    rw [List.pairwise_cons] at h
    unfold insertBySeverity
    split
    · rename_i hle
      rw [List.pairwise_cons]
      refine ⟨?_, List.pairwise_cons.mpr h⟩
      intro z hz
      rcases List.mem_cons.mp hz with hzy | hzys
      · subst hzy; exact hle
      · exact le_trans hle (h.1 z hzys)
    · rename_i hgt
      rw [List.pairwise_cons]
      refine ⟨?_, ih h.2⟩
      intro z hz
      rcases mem_insertBySeverity hz with hzx | hzys
      · subst hzx; omega
      · exact h.1 z hzys

theorem sortBySeverity_pairwise (l : List PWAIssue) :
    (sortBySeverity l).Pairwise
      (fun a b => severityOrder a.severity ≤ severityOrder b.severity) := by
  induction l with
  | nil => simp [sortBySeverity]
  | cons x xs ih => exact insertBySeverity_pairwise ih

/-- Claim C10 (confirmed): in every successful `runPWAAudit` result, the
`issues` list of the report content is sorted non-decreasingly by
severity rank (critical before serious before moderate before minor):
the `prioritized_recommendations` computation sorts the `issues` array
in place before the report is assembled, so the public `issues` order is
severity order. -/
theorem C10_pwa_issues_severity_sorted (pwaCategory : PWACategory)
    (audits : List (String × LighthouseAudit)) :
    (runPWAAudit pwaCategory audits).issues =
      sortBySeverity (pwaScan audits pwaCategory.auditRefs).issues ∧
    (runPWAAudit pwaCategory audits).issues.Pairwise
      (fun a b => severityOrder a.severity ≤ severityOrder b.severity) := by
  exact ⟨rfl, sortBySeverity_pairwise _⟩
